import Mathlib

/-!
Verification of the strategy-registry / linear-pipeline repository.

Shallow embedding of the core: a `Table` data model, the two concrete
pipeline steps (`ReadCSVStep`, `FilterStep`), the `Pipeline` engine, the
`StrategyFactory` registry, and the one concrete strategy
(`AnalysisOneStrategy`).  The process-wide mutable registry and the file
system are modelled as an explicit `World` state threaded through every
operation, so frame properties about the registry are statable.
-/

namespace PyPatterns

/-- Scalar cell values of a table: strings or numbers. -/
inductive Value where
  | str (s : String)
  | num (n : Int)
deriving DecidableEq, Repr

/-- A row maps column names to scalar values (association list, as a
pandas row maps column labels to cells). -/
abbrev Row := List (String × Value)

/-- A table: an ordered column set plus an ordered list of rows,
embedding a pandas DataFrame as used by the repository. -/
structure Table where
  columns : List String
  rows : List Row
deriving DecidableEq, Repr

/-- The value threaded through the pipeline: Python's `None` sentinel
(the initial `data = None` in `Pipeline.run`) or a loaded table. -/
inductive PData where
  | none
  | table (t : Table)
deriving DecidableEq, Repr

/-- Errors raised by step processing.  `sourceUnavailable` embeds the
`FileNotFoundError` from `pd.read_csv` on a missing path,
`sourceFormatError` the parse error on malformed content,
`columnNotFound` the `KeyError` from `data[self.column]` on an absent
column, and `typeError` the `TypeError` from indexing a non-table. -/
inductive PipelineError where
  | sourceUnavailable (path : String)
  | sourceFormatError (path : String)
  | columnNotFound (column : String)
  | typeError
deriving DecidableEq, Repr

/-- Error raised by `StrategyFactory.create`: the `ValueError` carrying
the unknown strategy name. -/
inductive FactoryError where
  | unknownStrategy (name : String)
deriving DecidableEq, Repr

/-- Modelled from the spec: what lies at a file path, as observed by the
third-party `pd.read_csv` call in `ReadCSVStep.process` (not code of
this repository).  A path is missing (read fails with the
`SourceUnavailable` condition), holds malformed content (read fails with
the `SourceFormatError` condition), or holds readable tabular data. -/
inductive FileData where
  | missing
  | malformed
  | readable (t : Table)

/-- The file system: a mapping from paths to their contents. -/
def FS : Type := String → FileData

/-- A pipeline step, from `pipeline/steps.py`: `ReadCSVStep` holds its
configured `filepath`; `FilterStep` holds its configured `column` and
`condition_fn`. -/
inductive Step where
  | readCSV (filepath : String)
  | filter (column : String) (condition_fn : Value → Bool)

/-- A pipeline owns its ordered list of steps (`self.steps`). -/
structure Pipeline where
  steps : List Step

/-- The constructor arguments of a concrete strategy:
`(filepath, column, condition_fn)` as forwarded by the driver. -/
structure StrategyArgs where
  filepath : String
  column : String
  condition_fn : Value → Bool

/-- A strategy instance: it holds the pipeline built in `__init__`. -/
structure Strategy where
  pipeline : Pipeline

/-- A strategy class, as stored in the registry: a constructor taking
the strategy arguments to an instance. -/
def StrategyClass : Type := StrategyArgs → Strategy

/-- The registry `StrategyFactory._registry`: a dictionary from strategy
names to strategy classes. -/
def Registry : Type := String → Option StrategyClass

/-- Dictionary assignment `_registry[name] = strategy_cls`. -/
def Registry.set (reg : Registry) (n : String) (c : StrategyClass) : Registry :=
  fun k => if k = n then some c else reg k

/-- The process-wide mutable state: the registry global plus the file
system read by the source step. -/
structure World where
  registry : Registry
  fs : FS

/-- The boolean mask `data[self.column].apply(self.condition_fn)`
evaluated at one row: look the configured column up in the row and apply
the condition function. -/
def rowPred (column : String) (condition_fn : Value → Bool) (r : Row) : Bool :=
  match r.lookup column with
  | some v => condition_fn v
  | Option.none => false

/-- `Step.process`, state-passing.  `ReadCSVStep.process` ignores its
input and loads from its configured path; `FilterStep.process` checks
the column and keeps the rows whose value satisfies the condition, in
order (boolean-mask row selection keeps all columns).  Neither step
writes to the world. -/
def Step.processSt (s : Step) (d : PData) (w : World) :
    Except PipelineError PData × World :=
  match s with
  | .readCSV filepath =>
    match w.fs filepath with
    | .missing => (.error (.sourceUnavailable filepath), w)
    | .malformed => (.error (.sourceFormatError filepath), w)
    | .readable t => (.ok (.table t), w)
  | .filter column condition_fn =>
    match d with
    | .none => (.error .typeError, w)
    | .table t =>
      if t.columns.contains column then
        (.ok (.table (Table.mk t.columns (t.rows.filter (rowPred column condition_fn)))), w)
      else
        (.error (.columnNotFound column), w)

/-- `Pipeline.add_step`: appends a step to the ordered sequence. -/
def Pipeline.add_step (p : Pipeline) (s : Step) : Pipeline :=
  Pipeline.mk (p.steps ++ [s])

/-- The loop body of `Pipeline.run`: thread `data` through the remaining
steps; a raising step aborts the run. -/
def Pipeline.runFrom (w : World) (d : PData) : List Step → Except PipelineError PData × World
  | [] => (.ok d, w)
  | s :: rest =>
    match s.processSt d w with
    | (.ok d2, w2) => Pipeline.runFrom w2 d2 rest
    | (.error e, w2) => (.error e, w2)

/-- `Pipeline.run`: starts from `data = None` and threads it through the
steps in order. -/
def Pipeline.run (p : Pipeline) (w : World) : Except PipelineError PData × World :=
  Pipeline.runFrom w PData.none p.steps

/-- `StrategyFactory.register(name)` applied to a class: writes the
class into the registry dictionary (silently overwriting). -/
def StrategyFactory.register (n : String) (c : StrategyClass) (w : World) : World :=
  World.mk (w.registry.set n c) w.fs

/-- `StrategyFactory.create(name, *args)`: looks the name up; absent
names raise the unknown-strategy error; otherwise the registered class
is constructed with the forwarded arguments.  The registry is read, not
written. -/
def StrategyFactory.create (n : String) (args : StrategyArgs) (w : World) :
    Except FactoryError Strategy × World :=
  match w.registry n with
  | some cls => (.ok (cls args), w)
  | Option.none => (.error (.unknownStrategy n), w)

/-- `AnalysisOneStrategy.__init__`: builds a pipeline of
`ReadCSVStep(filepath)` then `FilterStep(column, condition_fn)` via
`add_step`. -/
def AnalysisOneStrategy (args : StrategyArgs) : Strategy :=
  Strategy.mk (((Pipeline.mk []).add_step (Step.readCSV args.filepath)).add_step
    (Step.filter args.column args.condition_fn))

/-- `AnalysisOneStrategy.execute`: runs the stored pipeline. -/
def Strategy.execute (s : Strategy) (w : World) : Except PipelineError PData × World :=
  s.pipeline.run w

/-- The demonstration predicate `age_greater_than_30` from `main.py`:
true on numbers above 30 (as a total function on scalar values). -/
def age_greater_than_30 : Value → Bool
  | Value.num n => decide (30 < n)
  | _ => false

/-- The three-row demonstration table from the spec scenario. -/
def demoTable : Table :=
  Table.mk ["name", "age"]
    [[("name", Value.str "Alice"), ("age", Value.num 25)],
     [("name", Value.str "Bob"), ("age", Value.num 35)],
     [("name", Value.str "Carol"), ("age", Value.num 45)]]

/-- The expected filtered result of the spec scenario. -/
def demoFiltered : Table :=
  Table.mk ["name", "age"]
    [[("name", Value.str "Bob"), ("age", Value.num 35)],
     [("name", Value.str "Carol"), ("age", Value.num 45)]]

/-- A world with an empty registry and an empty file system. -/
def w0 : World := World.mk (fun _ => Option.none) (fun _ => FileData.missing)

/-- The registry as built by the repository at startup: only
`analysis_one` is registered. -/
def startupWorld : World :=
  StrategyFactory.register "analysis_one" AnalysisOneStrategy w0

/-- The demonstration arguments from `main.py`. -/
def demoArgs : StrategyArgs :=
  StrategyArgs.mk "data.csv" "age" age_greater_than_30

/-- A file system holding the demonstration table at `data.csv`. -/
def demoFS : FS :=
  fun p => if p = "data.csv" then FileData.readable demoTable else FileData.missing

/-- A file system holding malformed content at `bad.csv`. -/
def malformedFS : FS :=
  fun p => if p = "bad.csv" then FileData.malformed else FileData.missing

/-- A world whose file system holds the demonstration table. -/
def demoWorld : World := World.mk (fun _ => Option.none) demoFS

/-- A world whose file system holds malformed content at `bad.csv`. -/
def malformedWorld : World := World.mk (fun _ => Option.none) malformedFS

/-- The demonstration pipeline: read `data.csv`, then filter `age` with
the demonstration predicate (the pipeline `AnalysisOneStrategy` builds
from the demonstration arguments). -/
def demoPipeline : Pipeline :=
  ((Pipeline.mk []).add_step (Step.readCSV "data.csv")).add_step
    (Step.filter "age" age_greater_than_30)

/-- A second, distinct strategy class used to exercise registry
overwriting: it builds a pipeline with only the source step. -/
def AltStrategy : StrategyClass :=
  fun args => Strategy.mk ((Pipeline.mk []).add_step (Step.readCSV args.filepath))

/-- C1: every row returned by `FilterStep.process` on a table containing
the configured column satisfies the predicate on that column, the
retained rows are an order-preserving subsequence of the input rows, and
on the three-row demonstration table with predicate `age > 30` the
result is exactly the Bob/Carol table in order. -/
theorem filterStep_filters_and_preserves_order :
    (∀ (c : String) (p : Value → Bool) (t : Table) (w : World),
      t.columns.contains c = true →
      ∃ t2 : Table,
        (Step.filter c p).processSt (PData.table t) w = (Except.ok (PData.table t2), w) ∧
        (∀ r ∈ t2.rows, ∃ v, r.lookup c = some v ∧ p v = true) ∧
        t2.rows.Sublist t.rows) ∧
    (∀ w : World,
      (Step.filter "age" age_greater_than_30).processSt (PData.table demoTable) w =
        (Except.ok (PData.table demoFiltered), w)) := by
  constructor
  · intro c p t w h
    refine ⟨Table.mk t.columns (t.rows.filter (rowPred c p)), ?_, ?_, ?_⟩
    · simp [Step.processSt, h]
      simpa using h
    · intro r hr
      have hp : rowPred c p r = true := List.of_mem_filter hr
      unfold rowPred at hp
      cases hl : r.lookup c with
      | none => rw [hl] at hp; exact absurd hp (by simp)
      | some v => rw [hl] at hp; exact ⟨v, rfl, hp⟩
    · exact List.filter_sublist _
  · intro w
    rfl

/-- Witness for C1 at the demonstration table. -/
theorem filterStep_filters_witness :
    ∃ t2 : Table,
      (Step.filter "age" age_greater_than_30).processSt (PData.table demoTable) w0 =
        (Except.ok (PData.table t2), w0) ∧
      (∀ r ∈ t2.rows, ∃ v, r.lookup "age" = some v ∧ age_greater_than_30 v = true) ∧
      t2.rows.Sublist demoTable.rows :=
  filterStep_filters_and_preserves_order.1 "age" age_greater_than_30 demoTable w0 (by decide)

/-- C2: for every registered name, `create` returns an instance built by
forwarding the arguments to exactly the class registered under that
name, and does not change the world. -/
theorem create_returns_registered_class :
    ∀ (w : World) (n : String) (cls : StrategyClass) (args : StrategyArgs),
      w.registry n = some cls →
      StrategyFactory.create n args w = (Except.ok (cls args), w) := by
  intro w n cls args h
  simp [StrategyFactory.create, h]

/-- Witness for C2 at the startup registry. -/
theorem create_returns_registered_class_witness :
    StrategyFactory.create "analysis_one" demoArgs startupWorld =
      (Except.ok (AnalysisOneStrategy demoArgs), startupWorld) :=
  create_returns_registered_class startupWorld "analysis_one" AnalysisOneStrategy demoArgs rfl

/-- C3: `create` on a name absent from the registry fails with the
unknown-strategy error carrying the requested name, constructs no
strategy, and leaves the world (hence the registry) unchanged. -/
theorem create_unknown_fails :
    ∀ (w : World) (n : String) (args : StrategyArgs),
      w.registry n = Option.none →
      StrategyFactory.create n args w =
        (Except.error (FactoryError.unknownStrategy n), w) := by
  intro w n args h
  simp [StrategyFactory.create, h]

/-- Witness for C3: `create "nonexistent"` on the startup registry. -/
theorem create_unknown_fails_witness :
    StrategyFactory.create "nonexistent" demoArgs startupWorld =
      (Except.error (FactoryError.unknownStrategy "nonexistent"), startupWorld) :=
  create_unknown_fails startupWorld "nonexistent" demoArgs rfl

/-- C8: registering a second class under an already-registered name
raises no error (`register` is total) and silently overwrites the entry:
any subsequent `create` of that name constructs an instance of the most
recently registered class. -/
theorem register_overwrites_silently :
    ∀ (w : World) (n : String) (A B : StrategyClass) (args : StrategyArgs),
      StrategyFactory.create n args
          (StrategyFactory.register n B (StrategyFactory.register n A w)) =
        (Except.ok (B args),
          StrategyFactory.register n B (StrategyFactory.register n A w)) := by
  intro w n A B args
  simp [StrategyFactory.create, StrategyFactory.register, Registry.set]

/-- Witness for C8: re-registering `analysis_one` with a different class
makes `create` return an instance of the second class. -/
theorem register_overwrites_silently_witness :
    StrategyFactory.create "analysis_one" demoArgs
        (StrategyFactory.register "analysis_one" AltStrategy
          (StrategyFactory.register "analysis_one" AnalysisOneStrategy w0)) =
      (Except.ok (AltStrategy demoArgs),
        StrategyFactory.register "analysis_one" AltStrategy
          (StrategyFactory.register "analysis_one" AnalysisOneStrategy w0)) :=
  register_overwrites_silently w0 "analysis_one" AnalysisOneStrategy AltStrategy demoArgs

/-- Folding `add_step` from any pipeline appends the steps in order. -/
theorem foldl_add_step (steps : List Step) :
    ∀ l : List Step,
      List.foldl Pipeline.add_step (Pipeline.mk l) steps = Pipeline.mk (l ++ steps) := by
  induction steps with
  | nil => intro l; simp
  | cons s rest ih =>
    intro l
    simp only [List.foldl_cons, Pipeline.add_step]
    rw [ih (l ++ [s])]
    simp

/-- Threading lemma for the `run` loop: if each remaining step, on the
value produced by its predecessor, succeeds with the next trace value
and the unchanged world, then the loop returns the last trace value. -/
theorem runFrom_threads :
    ∀ (steps : List Step) (ds : List PData) (d0 : PData) (w : World)
      (hlen : ds.length = steps.length),
      (∀ (i : Nat) (h : i < steps.length),
        (steps.get ⟨i, h⟩).processSt
            ((d0 :: ds).get ⟨i, by simp only [List.length_cons]; omega⟩) w
          = (Except.ok (ds.get ⟨i, by omega⟩), w)) →
      Pipeline.runFrom w d0 steps =
        (Except.ok ((d0 :: ds).getLast (by simp)), w) := by
  intro steps
  induction steps with
  | nil =>
    intro ds d0 w hlen hstep
    cases ds with
    | nil => simp [Pipeline.runFrom, List.getLast]
    | cons a l => simp at hlen
  | cons s rest ih =>
    intro ds d0 w hlen hstep
    cases ds with
    | nil => simp at hlen
    | cons d ds2 =>
      have h0 : s.processSt d0 w = (Except.ok d, w) := hstep 0 (Nat.succ_pos _)
      have hrest := ih ds2 d w (by simpa using hlen)
        (fun i h => hstep (i + 1) (Nat.succ_lt_succ h))
      have hne : (d :: ds2) ≠ [] := List.cons_ne_nil _ _
      calc Pipeline.runFrom w d0 (s :: rest)
          = Pipeline.runFrom w d rest := by
            simp only [Pipeline.runFrom]
            rw [h0]
        _ = (Except.ok ((d :: ds2).getLast hne), w) := hrest
        _ = (Except.ok ((d0 :: d :: ds2).getLast (by simp)), w) := by
            rw [List.getLast_cons hne]

/-- C4: a pipeline built by adding steps in order via `add_step` holds
exactly those steps in that order, and `run` invokes each step once in
that order, passing the `None` sentinel to the first step and each
step's output to the next, returning the last step's output. -/
theorem pipeline_run_threads_steps :
    ∀ steps : List Step,
      (List.foldl Pipeline.add_step (Pipeline.mk []) steps).steps = steps ∧
      ∀ (w : World) (ds : List PData) (hlen : ds.length = steps.length),
        (∀ (i : Nat) (h : i < steps.length),
          (steps.get ⟨i, h⟩).processSt
              ((PData.none :: ds).get ⟨i, by simp only [List.length_cons]; omega⟩) w
            = (Except.ok (ds.get ⟨i, by omega⟩), w)) →
        Pipeline.run (List.foldl Pipeline.add_step (Pipeline.mk []) steps) w =
          (Except.ok ((PData.none :: ds).getLast (by simp)), w) := by
  intro steps
  constructor
  · rw [foldl_add_step steps []]
    simp
  · intro w ds hlen hstep
    rw [foldl_add_step steps []]
    simp only [List.nil_append]
    exact runFrom_threads steps ds PData.none w hlen hstep

/-- Witness for C4: the two-step demonstration pipeline on the
demonstration file system reads the table and then filters it. -/
theorem pipeline_run_threads_steps_witness :
    Pipeline.run demoPipeline demoWorld =
      (Except.ok (PData.table demoFiltered), demoWorld) := by
  have h := (pipeline_run_threads_steps
      [Step.readCSV "data.csv", Step.filter "age" age_greater_than_30]).2
    demoWorld [PData.table demoTable, PData.table demoFiltered] rfl ?hstep
  · exact h
  case hstep =>
    intro i hi
    cases i with
    | zero => rfl
    | succ j =>
      cases j with
      | zero => rfl
      | succ k =>
        simp only [List.length_cons, List.length_nil] at hi
        omega

/-- C5: running a pipeline with no steps returns the `None` sentinel
unchanged (and touches no state). -/
theorem empty_pipeline_returns_sentinel :
    ∀ w : World, Pipeline.run (Pipeline.mk []) w = (Except.ok PData.none, w) :=
  fun _ => rfl

/-- Witness for C5 at a concrete world. -/
theorem empty_pipeline_returns_sentinel_witness :
    Pipeline.run (Pipeline.mk []) w0 = (Except.ok PData.none, w0) :=
  empty_pipeline_returns_sentinel w0

/-- C6: `FilterStep.process` on a table whose column set lacks the
configured column fails with the column-not-found error carrying the
column name, producing no output table and leaving the world
unchanged. -/
theorem filter_missing_column_fails :
    ∀ (c : String) (p : Value → Bool) (t : Table) (w : World),
      t.columns.contains c = false →
      (Step.filter c p).processSt (PData.table t) w =
        (Except.error (PipelineError.columnNotFound c), w) := by
  intro c p t w h
  simp [Step.processSt, h]
  simpa using h

/-- Witness for C6: filtering the demonstration table on the absent
column `salary`. -/
theorem filter_missing_column_fails_witness :
    (Step.filter "salary" age_greater_than_30).processSt (PData.table demoTable) w0 =
      (Except.error (PipelineError.columnNotFound "salary"), w0) :=
  filter_missing_column_fails "salary" age_greater_than_30 demoTable w0 (by decide)

/-- C7: the source step fails with the source-unavailable error carrying
its path when the path holds no readable data, and with the
source-format error when the content cannot be parsed as a table. -/
theorem readcsv_error_modes :
    ∀ (fp : String) (d : PData) (w : World),
      (w.fs fp = FileData.missing →
        (Step.readCSV fp).processSt d w =
          (Except.error (PipelineError.sourceUnavailable fp), w)) ∧
      (w.fs fp = FileData.malformed →
        (Step.readCSV fp).processSt d w =
          (Except.error (PipelineError.sourceFormatError fp), w)) := by
  intro fp d w
  constructor
  · intro h; simp [Step.processSt, h]
  · intro h; simp [Step.processSt, h]

/-- Witness for C7: a nonexistent path fails as unavailable, a malformed
file fails as a format error. -/
theorem readcsv_error_modes_witness :
    (Step.readCSV "nope.csv").processSt PData.none w0 =
        (Except.error (PipelineError.sourceUnavailable "nope.csv"), w0) ∧
    (Step.readCSV "bad.csv").processSt PData.none malformedWorld =
        (Except.error (PipelineError.sourceFormatError "bad.csv"), malformedWorld) :=
  ⟨(readcsv_error_modes "nope.csv" PData.none w0).1 rfl,
   (readcsv_error_modes "bad.csv" PData.none malformedWorld).2 rfl⟩

/-- C9: the source step's result does not depend on its input argument:
any two inputs (the sentinel included) give the same result, namely the
table freshly loaded from the configured path when it is readable. -/
theorem readcsv_ignores_input :
    ∀ (fp : String) (w : World) (x y : PData),
      (Step.readCSV fp).processSt x w = (Step.readCSV fp).processSt y w ∧
      (∀ t : Table, w.fs fp = FileData.readable t →
        (Step.readCSV fp).processSt x w = (Except.ok (PData.table t), w)) := by
  intro fp w x y
  constructor
  · rfl
  · intro t h; simp [Step.processSt, h]

/-- Witness for C9: on the demonstration file system, the sentinel and a
table input give the same freshly loaded table. -/
theorem readcsv_ignores_input_witness :
    (Step.readCSV "data.csv").processSt PData.none demoWorld =
        (Step.readCSV "data.csv").processSt (PData.table demoFiltered) demoWorld ∧
    (Step.readCSV "data.csv").processSt PData.none demoWorld =
        (Except.ok (PData.table demoTable), demoWorld) :=
  ⟨(readcsv_ignores_input "data.csv" demoWorld PData.none (PData.table demoFiltered)).1,
   (readcsv_ignores_input "data.csv" demoWorld PData.none (PData.table demoFiltered)).2
      demoTable rfl⟩

/-- Step processing never changes the world (in particular it never
writes the registry): every branch of `processSt` returns `w`. -/
theorem processSt_world (s : Step) (d : PData) (w : World) :
    (s.processSt d w).2 = w := by
  cases s with
  | readCSV fp =>
    simp only [Step.processSt]
    cases w.fs fp <;> rfl
  | filter c p =>
    cases d with
    | none => rfl
    | table t =>
      simp only [Step.processSt]
      split <;> rfl

/-- The `run` loop never changes the world. -/
theorem runFrom_world (steps : List Step) :
    ∀ (d : PData) (w : World), (Pipeline.runFrom w d steps).2 = w := by
  induction steps with
  | nil => intro d w; rfl
  | cons s rest ih =>
    intro d w
    simp only [Pipeline.runFrom]
    have hw := processSt_world s d w
    cases hp : s.processSt d w with
    | mk r w2 =>
      rw [hp] at hw
      cases r with
      | ok d2 => rw [ih d2 w2]; exact hw
      | error e => exact hw

/-- C10: executing a strategy leaves the process-wide registry
unchanged: every `Step.process`, every `Pipeline.run`, and every
`Strategy.execute` returns the registry exactly as it found it (only
`register` writes it). -/
theorem execute_preserves_registry :
    (∀ (s : Step) (d : PData) (w : World),
      ((s.processSt d w).2).registry = w.registry) ∧
    (∀ (p : Pipeline) (w : World), ((p.run w).2).registry = w.registry) ∧
    (∀ (s : Strategy) (w : World), ((s.execute w).2).registry = w.registry) := by
  refine ⟨?_, ?_, ?_⟩
  · intro s d w; rw [processSt_world]
  · intro p w; rw [Pipeline.run, runFrom_world]
  · intro s w; rw [Strategy.execute, Pipeline.run, runFrom_world]

/-- Witness for C10: executing the demonstration strategy leaves the
startup registry as it was. -/
theorem execute_preserves_registry_witness :
    (((AnalysisOneStrategy demoArgs).execute startupWorld).2).registry =
      startupWorld.registry :=
  execute_preserves_registry.2.2 (AnalysisOneStrategy demoArgs) startupWorld

end PyPatterns
